import Mathlib

/-!
Verification of the hand-motion analysis core
(`Web-Service/analysis-service/protocol_system.py` and
`Web-Service/analysis-service/data_handling.py`).

Floating-point values are modelled as rationals (every IEEE float is a
rational number); `Option ℚ` models a float that may be NaN (`none` = NaN).
Opaque numeric library routines (FFT magnitudes, Welch PSD, `filtfilt`,
`polyfit`, `sqrt`, `log`, ...) are passed in as explicit function
parameters, so theorems about code paths that do not depend on them hold
for every possible implementation of those routines.
-/

namespace SynaptiHand

/-! ## Severity levels (`protocol_system.py`, class `SeverityLevel`) -/

/-- Clinical severity classification levels (Enum `SeverityLevel`). -/
inductive SeverityLevel
  | NORMAL
  | MILD
  | MODERATE
  | SEVERE
deriving DecidableEq, Repr

/-- The numeric enum value: NORMAL=0, MILD=1, MODERATE=2, SEVERE=3. -/
def SeverityLevel.value : SeverityLevel → ℕ
  | .NORMAL => 0
  | .MILD => 1
  | .MODERATE => 2
  | .SEVERE => 3

/-! ## Reference ranges (`protocol_system.py`, dataclass `ReferenceRange`) -/

/-- Reference range for a biomarker.  The `unit` string field is omitted
(pure presentation metadata, read by no algorithm verified here). -/
structure ReferenceRange where
  normal_min : ℚ
  normal_max : ℚ
  mild_threshold : ℚ
  moderate_threshold : ℚ
  severe_threshold : ℚ
  higher_is_worse : Bool
deriving DecidableEq, Repr

/-- `ReferenceRange.classify`: classify a value into a severity level.
`none` models a NaN input (`np.isnan(value)`). -/
def ReferenceRange.classify (r : ReferenceRange) (value : Option ℚ) : SeverityLevel :=
  match value with
  | none => .NORMAL
  | some v =>
    if r.higher_is_worse then
      if v ≤ r.normal_max then .NORMAL
      else if v ≤ r.mild_threshold then .MILD
      else if v ≤ r.moderate_threshold then .MODERATE
      else .SEVERE
    else
      if v ≥ r.normal_min then .NORMAL
      else if v ≥ r.mild_threshold then .MILD
      else if v ≥ r.moderate_threshold then .MODERATE
      else .SEVERE

/-- `ReferenceRange.get_percentile_score`: 0-100 score for a value,
linearly interpolated between the normal boundary and the severe
threshold.  `none` models a NaN input. -/
def ReferenceRange.get_percentile_score (r : ReferenceRange) (value : Option ℚ) : ℚ :=
  match value with
  | none => 100
  | some v =>
    if r.higher_is_worse then
      if v ≤ r.normal_max then 100
      else if v ≥ r.severe_threshold then 0
      else 100 * (1 - (v - r.normal_max) / (r.severe_threshold - r.normal_max))
    else
      if v ≥ r.normal_min then 100
      else if v ≤ r.severe_threshold then 0
      else 100 * (v - r.severe_threshold) / (r.normal_min - r.severe_threshold)

/-! ## Severity scorer (`protocol_system.py`, class `SeverityScorer`) -/

/-- A Python float-or-None dictionary value: `pynone` models Python `None`,
`pynan` models float NaN, `num q` a finite float. -/
inductive PyVal
  | pynone
  | pynan
  | num (q : ℚ)
deriving DecidableEq, Repr

/-- A biomarker with its clinical score (dataclass `ScoredBiomarker`).
The `unit` and `interpretation` string fields are omitted (presentation
text generated by `_interpret_biomarker`, read by no algorithm here). -/
structure ScoredBiomarker where
  name : String
  value : Option ℚ
  severity : SeverityLevel
  percentile_score : ℚ
deriving DecidableEq, Repr

/-- Substring test used for `'asymmetry' in name.lower()` etc. -/
def strContains (s pat : String) : Bool :=
  decide (pat.toList <:+: s.toList)

/-- `SeverityScorer.score_biomarker`: score one biomarker against the
scorer's reference ranges (an association list `name ↦ range`). -/
def score_biomarker (ranges : List (String × ReferenceRange))
    (name : String) (value : Option ℚ) : ScoredBiomarker :=
  match ranges.lookup name with
  | none =>
    { name := name, value := value, severity := .NORMAL, percentile_score := 75 }
  | some ref =>
    let value := if strContains name.toLower "asymmetry" ∨ strContains name.toLower "lag"
      then value.map (fun v => |v|) else value
    { name := name, value := value,
      severity := ref.classify value,
      percentile_score := ref.get_percentile_score value }

/-- `SeverityScorer.score_biomarkers`: score a dictionary of biomarkers,
skipping entries whose value is Python `None` or float NaN. -/
def score_biomarkers (ranges : List (String × ReferenceRange))
    (biomarkers : List (String × PyVal)) : List ScoredBiomarker :=
  biomarkers.foldl
    (fun scored p =>
      match p.2 with
      | .num q => scored ++ [score_biomarker ranges p.1 (some q)]
      | _ => scored)
    []

/-- `SeverityScorer.compute_domain_score`: severity-weighted average of the
percentile scores of the domain's biomarkers (`np.average(scores, weights)`). -/
def compute_domain_score (scored_biomarkers : List ScoredBiomarker)
    (domain_biomarkers : List String) : ℚ :=
  let relevant := scored_biomarkers.filter (fun sb => domain_biomarkers.contains sb.name)
  if relevant = [] then 100
  else
    let weights := relevant.map (fun sb => 1 + ((3 : ℚ) - sb.severity.value) * 0.5)
    let scores := relevant.map (fun sb => sb.percentile_score)
    (List.zipWith (· * ·) scores weights).sum / weights.sum

/-- `SeverityScorer.classify_severity`: bucket a composite score. -/
def classify_severity (score : ℚ) : SeverityLevel :=
  if score ≥ 85 then .NORMAL
  else if score ≥ 65 then .MILD
  else if score ≥ 40 then .MODERATE
  else .SEVERE

/-- The per-biomarker domain weight exactly as the spec words it:
`1 + (3 − severity_rank) × 0.5`. -/
def specDomainWeight (sev : SeverityLevel) : ℚ :=
  1 + ((3 : ℚ) - sev.value) * 0.5

/-! ## List helpers shared by the numeric embeddings -/

/-- `np.mean` of a list (guards in the source keep every use nonempty). -/
def listMean (l : List ℚ) : ℚ := l.sum / l.length

/-- `np.max` of a nonempty list (`0` on the unreachable empty case). -/
def listMax : List ℚ → ℚ
  | [] => 0
  | x :: xs => xs.foldl max x

/-- `np.min` of a nonempty list (`0` on the unreachable empty case). -/
def listMin : List ℚ → ℚ
  | [] => 0
  | x :: xs => xs.foldl min x

/-! ## Event extraction (`protocol_system.py`, class `EventDetector`) -/

/-- A detected event (dataclass `DetectedEvent`).  The derived
`event_type` string (a renaming of `label` through the static
`EVENT_CATEGORIES` table) and the `metadata` statistics dictionary are
omitted; no verified algorithm reads them. -/
structure DetectedEvent where
  category : String
  label : String
  start_frame : ℤ
  end_frame : ℤ
  duration_frames : ℤ
  confidence : ℚ
  peak_confidence : ℚ
deriving DecidableEq, Repr

/-- The detection parameters of `EventDetector.__init__` (model/encoder
paths are I/O plumbing and omitted). -/
structure EventDetector where
  min_event_duration : ℤ
  merge_gap : ℤ
  confidence_threshold : ℚ
deriving DecidableEq, Repr

/-- `EventDetector._create_event`: build a `DetectedEvent` from the
accumulated per-frame confidences. -/
def _create_event (category label : String) (start_frame end_frame : ℤ)
    (confidences : List ℚ) : DetectedEvent :=
  { category := category, label := label,
    start_frame := start_frame, end_frame := end_frame,
    duration_frames := end_frame - start_frame + 1,
    confidence := listMean confidences,
    peak_confidence := listMax confidences }

/-- The loop state of `_extract_events`: emitted events plus the
`current_label` / `current_start` / `current_confidences` variables. -/
structure EvState where
  events : List DetectedEvent
  currentLabel : Option String
  currentStart : ℕ
  currentConfs : List ℚ

/-- One iteration of the `for i in range(n)` loop of
`EventDetector._extract_events`, at index `i`. -/
def extractStep (d : EventDetector) (category : String) (labels : List String)
    (confidences : ℕ → ℚ) (frame_indices : ℕ → ℤ) (st : EvState) (i : ℕ) : EvState :=
  let label := labels.getD i ""
  let conf := confidences i
  if label = "None" ∨ label = "none" ∨ label = "NONE" ∨ conf < d.confidence_threshold then
    -- Skip "None" labels or low confidence
    match st.currentLabel with
    | none => st
    | some l =>
      if (i : ℤ) - st.currentStart ≤ d.merge_gap then
        st  -- keep event open
      else
        { events := st.events ++
            [_create_event category l (frame_indices st.currentStart)
              (frame_indices (i - 1)) st.currentConfs],
          currentLabel := none, currentStart := st.currentStart, currentConfs := [] }
  else
    match st.currentLabel with
    | none =>
      { st with currentLabel := some label, currentStart := i, currentConfs := [conf] }
    | some l =>
      if label = l then
        { st with currentConfs := st.currentConfs ++ [conf] }
      else
        { events := st.events ++
            [_create_event category l (frame_indices st.currentStart)
              (frame_indices (i - 1)) st.currentConfs],
          currentLabel := some label, currentStart := i, currentConfs := [conf] }

/-- `EventDetector._extract_events`: one deterministic left-to-right pass
over the per-frame `(label, confidence)` stream, then the
minimum-duration filter.  `confidences` and `frame_indices` model the
equally-long numpy arrays (only indices `< labels.length` are read). -/
def _extract_events (d : EventDetector) (category : String) (labels : List String)
    (confidences : ℕ → ℚ) (frame_indices : ℕ → ℤ) : List DetectedEvent :=
  let n := labels.length
  if n = 0 then []
  else
    let st := (List.range n).foldl
      (extractStep d category labels confidences frame_indices)
      { events := [], currentLabel := none, currentStart := 0, currentConfs := [] }
    let evs := match st.currentLabel with
      | some l => st.events ++
          [_create_event category l (frame_indices st.currentStart)
            (frame_indices (n - 1)) st.currentConfs]
      | none => st.events
    evs.filter (fun e => d.min_event_duration ≤ e.duration_frames)

/-! ## Hysteresis thresholding (`data_handling.py`, class `HysteresisThreshold`) -/

/-- One step of the hysteresis state machine in
`HysteresisThreshold.apply`: the update of `current_state` at one sample. -/
def hysteresisStep (high_thresh low_thresh : ℚ) (current_state : Bool) (x : ℚ) : Bool :=
  if current_state then
    if x < low_thresh then false else current_state
  else
    if x > high_thresh then true else current_state

/-- The `for i in range(len(sig))` loop of `HysteresisThreshold.apply`,
emitting `state[i]` after each update. -/
def hysteresisLoop (high_thresh low_thresh : ℚ) : Bool → List ℚ → List Bool
  | _, [] => []
  | cur, x :: xs =>
    let nxt := hysteresisStep high_thresh low_thresh cur x
    nxt :: hysteresisLoop high_thresh low_thresh nxt xs

/-- `HysteresisThreshold.apply` with fixed thresholds (the adaptive branch
only substitutes `np.quantile` values for them before the same loop), and
initial state `current_state = False`.  Returns the binary state sequence;
the echoed threshold dictionary is omitted. -/
def hysteresis_apply (high_threshold low_threshold : ℚ) (sig : List ℚ) : List Bool :=
  hysteresisLoop high_threshold low_threshold false sig

/-! ## Windowed filters (`data_handling.py`) -/

/-- `ButterworthFilter` coefficient state: the `b, a` arrays produced by
`signal.butter` in `_design_filter`.  (The same `apply` body is shared
verbatim by the Chebyshev, Bessel, Elliptic and Bandpass filter classes.) -/
structure ButterworthFilter where
  b : List ℚ
  a : List ℚ
deriving DecidableEq, Repr

/-- `ButterworthFilter.apply`.  `filtfilt` is `scipy.signal.filtfilt`,
passed as an explicit parameter (opaque numeric routine). -/
def ButterworthFilter.apply (f : ButterworthFilter)
    (filtfilt : List ℚ → List ℚ → List ℚ → List ℚ) (data : List ℚ) : List ℚ :=
  if data.length < 3 * max f.a.length f.b.length then data
  else filtfilt f.b f.a data

/-- `SavitzkyGolayFilter` parameters. -/
structure SavitzkyGolayFilter where
  window_length : ℕ
  polyorder : ℕ
deriving DecidableEq, Repr

/-- `SavitzkyGolayFilter.apply`.  `savgol` is `scipy.signal.savgol_filter`,
passed as an explicit parameter (opaque numeric routine). -/
def SavitzkyGolayFilter.apply (f : SavitzkyGolayFilter)
    (savgol : List ℚ → ℕ → ℕ → List ℚ) (data : List ℚ) : List ℚ :=
  if data.length < f.window_length then data
  else savgol data f.window_length f.polyorder

/-! ## Numeric helpers for the biomarker calculator

`np.gradient`, `np.diff`, `np.trapz`, `np.searchsorted`, `np.fft.rfftfreq`,
`np.argmax`, Python `int()` truncation and population `np.std` translated
directly; transcendental / spectral library routines stay parameters. -/

/-- `np.diff`: consecutive differences. -/
def npDiff (l : List ℚ) : List ℚ :=
  List.zipWith (fun a b => a - b) l.tail l

/-- `np.gradient(l, dt)`: one-sided differences at the ends, central
differences inside (the guarded uses all have `l.length ≥ 4`). -/
def npGradient (dt : ℚ) (l : List ℚ) : List ℚ :=
  (List.range l.length).map (fun i =>
    if i = 0 then (l.getD 1 0 - l.getD 0 0) / dt
    else if i = l.length - 1 then (l.getD i 0 - l.getD (i - 1) 0) / dt
    else (l.getD (i + 1) 0 - l.getD (i - 1) 0) / (2 * dt))

/-- `scipy.integrate.trapezoid(l, dx)`. -/
def trapezoid (dx : ℚ) (l : List ℚ) : ℚ :=
  (List.zipWith (fun a b => a + b) l.tail l).sum * dx / 2

/-- `np.searchsorted(l, x)` (side left) for a sorted `l`: the number of
entries strictly below `x`. -/
def searchsorted (l : List ℚ) (x : ℚ) : ℕ :=
  l.countP (fun v => decide (v < x))

/-- `np.fft.rfftfreq(n, d)`: the `n / 2 + 1` nonnegative FFT bin frequencies. -/
def rfftfreq (n : ℕ) (d : ℚ) : List ℚ :=
  (List.range (n / 2 + 1)).map (fun k => (k : ℚ) / (n * d))

/-- `np.argmax`: index of the first maximal entry. -/
def argmaxIdx (l : List ℚ) : ℕ :=
  (l.enum.foldl (fun best p => if p.2 > best.2 then p else best) (0, l.headD 0)).1

/-- Strict order on `-∞`-extended rationals (`none` models `-np.inf`). -/
def gtOpt : Option ℚ → Option ℚ → Bool
  | some x, some y => decide (y < x)
  | some _, none => true
  | none, _ => false

/-- `np.argmax` on a `-∞`-extended array (first maximal index). -/
def argmaxOpt (l : List (Option ℚ)) : ℕ :=
  (l.enum.foldl (fun best p => if gtOpt p.2 best.2 then p else best) (0, l.headD none)).1

/-- Python `int()`: truncation toward zero. -/
def pyInt (q : ℚ) : ℤ := q.num.tdiv q.den

/-- Population standard deviation `np.std`, through the supplied float
square root `sqrtF`. -/
def npStd (sqrtF : ℚ → ℚ) (l : List ℚ) : ℚ :=
  sqrtF (listMean (l.map (fun x => (x - listMean l) ^ 2)))

/-- The last `n` entries, Python `l[-n:]` for `n ≥ 1`. -/
def takeLast (n : ℕ) (l : List α) : List α := l.drop (l.length - n)

/-! ## Biomarker calculator (`protocol_system.py`, class `BiomarkerCalculator`)

Each method returns `Option ℚ`, `none` modelling `np.nan`.  `fs` is the
sampling frequency field; `self._dt = 1 / fs`.  Opaque numeric routines
are explicit parameters:
`sqrtF` = `np.sqrt`, `logF` = `np.log`,
`rfftMag v` = `np.abs(np.fft.rfft(v))`,
`welchF fs nperseg x` = `scipy.signal.welch(x, fs, nperseg)`,
`polyfitSlope x y` = `np.polyfit(x, y, 1)[0]`,
`correlateF a v` = `scipy.signal.correlate(a, v, mode=full)`,
`lagsF m n` = `scipy.signal.correlation_lags(m, n, mode=full)`,
`coherenceF fs nperseg x y` = `scipy.signal.coherence(x, y, fs, nperseg)`,
`bandpassF lo hi x` = `filtfilt(*butter(2, [lo, hi], band), x)` with the
source's `try/except` modelled by `Option`,
`hilbertMagF x` = `np.abs(scipy.signal.hilbert(x))`. -/

/-- `BiomarkerCalculator.compute_sparc`: negated arc length of the
normalized velocity-magnitude spectrum. -/
def compute_sparc (sqrtF : ℚ → ℚ) (rfftMag : List ℚ → List ℚ) (fs : ℚ)
    (velocity : List ℚ) (freq_cutoff amplitude_threshold : ℚ) : Option ℚ :=
  if velocity.length < 4 then none
  else
    let n := velocity.length
    let freq := rfftfreq n (1 / fs)
    let spectrum := rfftMag velocity
    let spectrum_norm := spectrum.map (fun x => x / (listMax spectrum + 1 / 10 ^ 10))
    let cutoff_idx := searchsorted freq freq_cutoff
    if cutoff_idx < 2 then none
    else
      -- boolean mask over the sub-cutoff bins (freq and spectrum have the
      -- same length n / 2 + 1 for the real rfft; paired selection)
      let prefixPairs := (freq.take cutoff_idx).zip (spectrum_norm.take cutoff_idx)
      let maskCount := ((spectrum_norm.take cutoff_idx).filter
        (fun x => decide (amplitude_threshold < x))).length
      let valid := if maskCount < 2 then prefixPairs
        else prefixPairs.filter (fun p => decide (amplitude_threshold < p.2))
      let freq_valid := valid.map (fun p => p.1)
      let spectrum_valid := valid.map (fun p => p.2)
      if freq_valid.length < 2 then none
      else
        let freq_norm := freq_valid.map (fun f => f / freq_cutoff)
        let df := npDiff freq_norm
        let ds := npDiff spectrum_valid
        let arc_length := ((df.zip ds).map (fun p => sqrtF (p.1 ^ 2 + p.2 ^ 2))).sum
        some (-arc_length)

/-- `BiomarkerCalculator.compute_ldljv`: log dimensionless jerk,
velocity-based. -/
def compute_ldljv (sqrtF logF : ℚ → ℚ) (fs : ℚ) (velocity : List ℚ)
    (movement_duration path_length : Option ℚ) : Option ℚ :=
  if velocity.length < 4 then none
  else
    let dt := 1 / fs
    let T := movement_duration.getD (velocity.length * dt)
    let L := path_length.getD ((velocity.map (fun v => |v|)).sum * dt)
    if T < 1 / 10 ^ 6 ∨ L < 1 / 10 ^ 6 then none
    else
      let acceleration := npGradient dt velocity
      let jerk := npGradient dt acceleration
      let jerk_squared_integral := trapezoid dt (jerk.map (fun j => j ^ 2))
      let dimensionless_jerk :=
        sqrtF ((T ^ 5 / (L ^ 2 + 1 / 10 ^ 10)) * jerk_squared_integral)
      some (-(logF (dimensionless_jerk + 1 / 10 ^ 10)))

/-- `BiomarkerCalculator.compute_ldlja`: log dimensionless jerk,
amplitude-based. -/
def compute_ldlja (sqrtF logF : ℚ → ℚ) (fs : ℚ) (position : List ℚ)
    (movement_duration amplitude : Option ℚ) : Option ℚ :=
  if position.length < 4 then none
  else
    let dt := 1 / fs
    let T := movement_duration.getD (position.length * dt)
    let A := amplitude.getD (listMax position - listMin position)
    if T < 1 / 10 ^ 6 ∨ A < 1 / 10 ^ 6 then none
    else
      let velocity := npGradient dt position
      let acceleration := npGradient dt velocity
      let jerk := npGradient dt acceleration
      let jerk_squared_integral := trapezoid dt (jerk.map (fun j => j ^ 2))
      let dimensionless_jerk :=
        sqrtF ((T ^ 5 / (A ^ 2 + 1 / 10 ^ 10)) * jerk_squared_integral)
      some (-(logF (dimensionless_jerk + 1 / 10 ^ 10)))

/-- `BiomarkerCalculator.compute_normalized_jerk`: RMS jerk over RMS
velocity. -/
def compute_normalized_jerk (sqrtF : ℚ → ℚ) (fs : ℚ) (velocity : List ℚ) : Option ℚ :=
  if velocity.length < 4 then none
  else
    let dt := 1 / fs
    let acceleration := npGradient dt velocity
    let jerk := npGradient dt acceleration
    let rms_jerk := sqrtF (listMean (jerk.map (fun j => j ^ 2)))
    let rms_velocity := sqrtF (listMean (velocity.map (fun v => v ^ 2)))
    if rms_velocity < 1 / 10 ^ 10 then none
    else some (rms_jerk / rms_velocity)

/-- `BiomarkerCalculator.compute_amplitude_decrement`: ratio of late-cycle
to early-cycle mean amplitude. -/
def compute_amplitude_decrement (amplitudes : List ℚ)
    (early_fraction late_fraction : ℚ) : Option ℚ :=
  if amplitudes.length < 3 then none
  else
    let n := amplitudes.length
    let early_n := max 1 (pyInt (n * early_fraction)).toNat
    let late_n := max 1 (pyInt (n * late_fraction)).toNat
    let early_mean := listMean (amplitudes.take early_n)
    let late_mean := listMean (takeLast late_n amplitudes)
    if early_mean < 1 / 10 ^ 10 then none
    else some (late_mean / early_mean)

/-- `BiomarkerCalculator.compute_velocity_reduction`: ratio of late-cycle
to early-cycle mean peak velocity. -/
def compute_velocity_reduction (peak_velocities : List ℚ)
    (early_fraction late_fraction : ℚ) : Option ℚ :=
  if peak_velocities.length < 3 then none
  else
    let n := peak_velocities.length
    let early_n := max 1 (pyInt (n * early_fraction)).toNat
    let late_n := max 1 (pyInt (n * late_fraction)).toNat
    let early_mean := listMean (peak_velocities.take early_n)
    let late_mean := listMean (takeLast late_n peak_velocities)
    if early_mean < 1 / 10 ^ 10 then none
    else some (late_mean / early_mean)

/-- `BiomarkerCalculator.compute_hesitation_index`: time until `|velocity|`
first exceeds a fraction of its maximum. -/
def compute_hesitation_index (fs : ℚ) (velocity : List ℚ)
    (threshold_fraction : ℚ) : Option ℚ :=
  if velocity.length < 2 then none
  else
    let dt := 1 / fs
    let max_vel := listMax (velocity.map (fun v => |v|))
    let threshold := max_vel * threshold_fraction
    match velocity.findIdx? (fun v => decide (threshold < |v|)) with
    | none => some (velocity.length * dt)
    | some i => some (i * dt)

/-- `BiomarkerCalculator.compute_performance_degradation`: normalized slope
of a linear regression of the metric values over normalized time. -/
def compute_performance_degradation (polyfitSlope : List ℚ → List ℚ → ℚ)
    (metric_values : List ℚ) (timestamps : Option (List ℚ)) : Option ℚ :=
  if metric_values.length < 3 then none
  else
    let ts := timestamps.getD ((List.range metric_values.length).map (fun i => (i : ℚ)))
    let t0 := ts.headD 0
    let t_norm := ts.map (fun t => (t - t0) / (ts.getLastD 0 - t0 + 1 / 10 ^ 10))
    let slope := polyfitSlope t_norm metric_values
    let initial_value := if metric_values.headD 0 ≠ 0 then metric_values.headD 0 else 1
    some (slope / initial_value)

/-- `BiomarkerCalculator.compute_consistency_decline`: slope of the local
coefficient of variation over sliding windows. -/
def compute_consistency_decline (sqrtF : ℚ → ℚ)
    (polyfitSlope : List ℚ → List ℚ → ℚ) (metric_values : List ℚ)
    (window_size : ℕ) : Option ℚ :=
  if metric_values.length < window_size * 2 then none
  else
    let n_windows := metric_values.length - window_size + 1
    let local_cv := (List.range n_windows).map (fun i =>
      let window := (metric_values.drop i).take window_size
      let mean_val := listMean window
      if 1 / 10 ^ 10 < mean_val then npStd sqrtF window / mean_val else 0)
    some (polyfitSlope ((List.range n_windows).map (fun i => (i : ℚ))) local_cv)

/-- `BiomarkerCalculator.compute_coordination_lag`: lag (seconds) of the
cross-correlation peak within the allowed window (`-np.inf` masking
modelled by `Option`). -/
def compute_coordination_lag (correlateF : List ℚ → List ℚ → List ℚ)
    (lagsF : ℕ → ℕ → List ℤ) (fs : ℚ) (left_signal right_signal : List ℚ)
    (max_lag_samples : Option ℤ) : Option ℚ :=
  if left_signal.length < 10 ∨ right_signal.length < 10 then none
  else
    let dt := 1 / fs
    let mls := max_lag_samples.getD
      (min ((left_signal.length : ℤ) / 4) (pyInt (0.5 * fs)))
    let correlation := correlateF right_signal left_signal
    let lags := lagsF right_signal.length left_signal.length
    let valid_correlation := List.zipWith
      (fun c lg => if |lg| ≤ mls then some c else (none : Option ℚ)) correlation lags
    let peak_idx := argmaxOpt valid_correlation
    some ((lags.getD peak_idx 0) * dt)

/-- `BiomarkerCalculator.compute_phase_coherence`: mean band-limited
spectral coherence. -/
def compute_phase_coherence (coherenceF : ℚ → ℕ → List ℚ → List ℚ → List ℚ × List ℚ)
    (fs : ℚ) (left_signal right_signal : List ℚ) (freq_band : ℚ × ℚ) : Option ℚ :=
  if left_signal.length < 10 ∨ right_signal.length < 10 then none
  else
    let min_len := min left_signal.length right_signal.length
    let fc := coherenceF fs (min 256 (min_len / 2))
      (left_signal.take min_len) (right_signal.take min_len)
    let band := (fc.1.zip fc.2).filter
      (fun p => decide (freq_band.1 ≤ p.1 ∧ p.1 ≤ freq_band.2))
    if band.length = 0 then none
    else some (listMean (band.map (fun p => p.2)))

/-- `BiomarkerCalculator.compute_q_factor`: tremor peak frequency over
half-power bandwidth in the tremor band. -/
def compute_q_factor (welchF : ℚ → ℕ → List ℚ → List ℚ × List ℚ) (fs : ℚ)
    (signal_data : List ℚ) (freq_band : ℚ × ℚ) : Option ℚ :=
  if signal_data.length < 10 then none
  else
    let fp := welchF fs (min 256 (signal_data.length / 2)) signal_data
    let band := (fp.1.zip fp.2).filter
      (fun p => decide (freq_band.1 ≤ p.1 ∧ p.1 ≤ freq_band.2))
    if band.length < 3 then none
    else
      let band_f := band.map (fun p => p.1)
      let band_psd := band.map (fun p => p.2)
      let peak_idx := argmaxIdx band_psd
      let peak_freq := band_f.getD peak_idx 0
      let peak_power := band_psd.getD peak_idx 0
      let half_power := peak_power / 2
      let above_indices := (List.range band_psd.length).filter
        (fun i => decide (half_power ≤ band_psd.getD i 0))
      if above_indices.length < 2 then none
      else
        let bandwidth := band_f.getD (above_indices.getLastD 0) 0
          - band_f.getD (above_indices.headD 0) 0
        if bandwidth < 1 / 10 ^ 6 then none
        else some (peak_freq / bandwidth)

/-- The per-window dominant tremor frequencies collected by
`compute_tremor_stability` / `compute_frequency_drift` (the window loop). -/
def windowDominantFreqs (welchF : ℚ → ℕ → List ℚ → List ℚ × List ℚ) (fs : ℚ)
    (signal_data : List ℚ) (window_samples : ℕ) (n_windows : ℕ)
    (freq_band : ℚ × ℚ) : List (ℕ × ℚ) :=
  (List.range n_windows).filterMap (fun i =>
    let window := (signal_data.drop (i * window_samples)).take window_samples
    let fp := welchF fs (min 64 (window.length / 2)) window
    let band := (fp.1.zip fp.2).filter
      (fun p => decide (freq_band.1 ≤ p.1 ∧ p.1 ≤ freq_band.2))
    if 0 < band.length then
      some (i, (band.map (fun p => p.1)).getD (argmaxIdx (band.map (fun p => p.2))) 0)
    else none)

/-- `BiomarkerCalculator.compute_tremor_stability`: `1 − CV` of the
windowed dominant frequency, clamped to `[0, 1]`. -/
def compute_tremor_stability (welchF : ℚ → ℕ → List ℚ → List ℚ × List ℚ)
    (sqrtF : ℚ → ℚ) (fs : ℚ) (signal_data : List ℚ) (window_duration : ℚ)
    (freq_band : ℚ × ℚ) : Option ℚ :=
  let window_samples := pyInt (window_duration * fs)
  if (signal_data.length : ℤ) < window_samples * 2 then none
  else
    let n_windows := signal_data.length / window_samples.toNat
    let dominant_freqs := (windowDominantFreqs welchF fs signal_data
      window_samples.toNat n_windows freq_band).map (fun p => p.2)
    if dominant_freqs.length < 2 then none
    else
      let cv := npStd sqrtF dominant_freqs / (listMean dominant_freqs + 1 / 10 ^ 10)
      some (max 0 (min 1 (1 - cv)))

/-- `BiomarkerCalculator.compute_amplitude_variability`: CV of the
band-passed Hilbert envelope. -/
def compute_amplitude_variability (bandpassF : ℚ → ℚ → List ℚ → Option (List ℚ))
    (hilbertMagF : List ℚ → List ℚ) (sqrtF : ℚ → ℚ) (fs : ℚ)
    (signal_data : List ℚ) (freq_band : ℚ × ℚ) : Option ℚ :=
  if signal_data.length < 10 then none
  else
    let nyq := fs / 2
    let low := freq_band.1 / nyq
    let high := min (freq_band.2 / nyq) 0.99
    if high ≤ low then none
    else
      match bandpassF low high signal_data with
      | none => none  -- the except branch of the source's try/except
      | some filtered =>
        let envelope := hilbertMagF filtered
        let mean_amp := listMean envelope
        if mean_amp < 1 / 10 ^ 10 then none
        else some (npStd sqrtF envelope / mean_amp)

/-- `BiomarkerCalculator.compute_frequency_drift`: regression slope of the
windowed dominant frequency over window mid-times. -/
def compute_frequency_drift (welchF : ℚ → ℕ → List ℚ → List ℚ × List ℚ)
    (polyfitSlope : List ℚ → List ℚ → ℚ) (fs : ℚ) (signal_data : List ℚ)
    (window_duration : ℚ) (freq_band : ℚ × ℚ) : Option ℚ :=
  let window_samples := pyInt (window_duration * fs)
  if (signal_data.length : ℤ) < window_samples * 3 then none
  else
    let dt := 1 / fs
    let n_windows := signal_data.length / window_samples.toNat
    let entries := windowDominantFreqs welchF fs signal_data
      window_samples.toNat n_windows freq_band
    let dominant_freqs := entries.map (fun p => p.2)
    let timestamps := entries.map (fun p =>
      ((p.1 * window_samples.toNat : ℕ) + ((p.1 + 1) * window_samples.toNat : ℕ) : ℚ) / 2 * dt)
    if dominant_freqs.length < 3 then none
    else some (polyfitSlope timestamps dominant_freqs)

/-! ## Helper lemmas -/

lemma foldl_max_le {xs : List ℚ} {x b : ℚ} (hx : x ≤ b) (h : ∀ y ∈ xs, y ≤ b) :
    xs.foldl max x ≤ b := by
  induction xs generalizing x with
  | nil => exact hx
  | cons a t ih =>
    exact ih (max_le hx (h a (List.mem_cons_self a t))) (fun y hy => h y (List.mem_cons_of_mem a hy))

lemma le_foldl_max_init {xs : List ℚ} {x : ℚ} : x ≤ xs.foldl max x := by
  induction xs generalizing x with
  | nil => exact le_rfl
  | cons a t ih => exact le_trans (le_max_left x a) ih

lemma le_foldl_max_mem {xs : List ℚ} {x y : ℚ} (hy : y ∈ xs) : y ≤ xs.foldl max x := by
  induction xs generalizing x with
  | nil => cases hy
  | cons a t ih =>
    rcases List.mem_cons.mp hy with rfl | hmem
    · exact le_trans (le_max_right x y) le_foldl_max_init
    · exact ih hmem

lemma le_listMax {l : List ℚ} {x : ℚ} (hx : x ∈ l) : x ≤ listMax l := by
  cases l with
  | nil => cases hx
  | cons a t =>
    rcases List.mem_cons.mp hx with rfl | hmem
    · exact le_foldl_max_init
    · exact le_foldl_max_mem hmem

lemma listMax_le {l : List ℚ} {b : ℚ} (hne : l ≠ []) (h : ∀ x ∈ l, x ≤ b) :
    listMax l ≤ b := by
  cases l with
  | nil => exact absurd rfl hne
  | cons a t =>
    exact foldl_max_le (h a (List.mem_cons_self a t)) (fun y hy => h y (List.mem_cons_of_mem a hy))

lemma listMean_nonneg {l : List ℚ} (h : ∀ x ∈ l, 0 ≤ x) : 0 ≤ listMean l := by
  unfold listMean
  exact div_nonneg (List.sum_nonneg h) (by positivity)

lemma listMean_le_listMax {l : List ℚ} (hne : l ≠ []) : listMean l ≤ listMax l := by
  unfold listMean
  have hlen : 0 < (l.length : ℚ) := by
    have : 0 < l.length := List.length_pos.mpr hne
    exact_mod_cast this
  rw [div_le_iff hlen]
  calc l.sum ≤ l.length • listMax l :=
        List.sum_le_card_nsmul l (listMax l) (fun x hx => le_listMax hx)
    _ = listMax l * l.length := by
        rw [nsmul_eq_mul]; ring

lemma zipWith_mul_map {α : Type} (f g : α → ℚ) (l : List α) :
    List.zipWith (· * ·) (l.map f) (l.map g) = l.map (fun x => f x * g x) := by
  induction l with
  | nil => rfl
  | cons a t ih => simp [ih]

/-! ## Claim theorems -/

/-- Claim C3: `SeverityScorer.classify_severity` buckets a composite score
at 85/65/40: `Normal` iff `s ≥ 85`, `Mild` iff `65 ≤ s < 85`, `Moderate`
iff `40 ≤ s < 65`, `Severe` iff `s < 40`; in particular 85 is Normal,
84.999 Mild, 65 Mild, 64.999 Moderate. -/
theorem classify_severity_boundaries :
    (∀ s : ℚ,
      (classify_severity s = .NORMAL ↔ 85 ≤ s) ∧
      (classify_severity s = .MILD ↔ 65 ≤ s ∧ s < 85) ∧
      (classify_severity s = .MODERATE ↔ 40 ≤ s ∧ s < 65) ∧
      (classify_severity s = .SEVERE ↔ s < 40)) ∧
    classify_severity 85 = .NORMAL ∧
    classify_severity (84999 / 1000) = .MILD ∧
    classify_severity 65 = .MILD ∧
    classify_severity (64999 / 1000) = .MODERATE := by
  refine ⟨fun s => ?_, by norm_num [classify_severity], by norm_num [classify_severity],
    by norm_num [classify_severity], by norm_num [classify_severity]⟩
  unfold classify_severity
  split_ifs with h1 h2 h3
  · exact ⟨iff_of_true rfl h1,
      iff_of_false (by decide) (fun hc => by linarith [hc.2]),
      iff_of_false (by decide) (fun hc => by linarith [hc.2]),
      iff_of_false (by decide) (fun hc => by linarith)⟩
  · exact ⟨iff_of_false (by decide) h1,
      iff_of_true rfl ⟨h2, by push_neg at h1; linarith⟩,
      iff_of_false (by decide) (fun hc => by linarith [hc.2]),
      iff_of_false (by decide) (fun hc => by linarith)⟩
  · exact ⟨iff_of_false (by decide) h1,
      iff_of_false (by decide) (fun hc => h2 hc.1),
      iff_of_true rfl ⟨h3, by push_neg at h2; linarith⟩,
      iff_of_false (by decide) (fun hc => by linarith)⟩
  · exact ⟨iff_of_false (by decide) h1,
      iff_of_false (by decide) (fun hc => h2 hc.1),
      iff_of_false (by decide) (fun hc => h3 hc.1),
      iff_of_true rfl (by push_neg at h3; linarith)⟩

/-- Claim C2: in `SeverityScorer.compute_domain_score` every scored
biomarker of the domain enters the weighted average of percentile scores
with weight `1 + (3 − severity_rank) × 0.5`; a Normal finding weighs 2.5
and a Severe finding 1.0. -/
theorem compute_domain_score_weighted_average
    (scored : List ScoredBiomarker) (domain : List String)
    (h : scored.filter (fun sb => domain.contains sb.name) ≠ []) :
    compute_domain_score scored domain =
      ((scored.filter (fun sb => domain.contains sb.name)).map
        (fun sb => specDomainWeight sb.severity * sb.percentile_score)).sum /
      ((scored.filter (fun sb => domain.contains sb.name)).map
        (fun sb => specDomainWeight sb.severity)).sum ∧
    specDomainWeight .NORMAL = 2.5 ∧ specDomainWeight .MILD = 2 ∧
    specDomainWeight .MODERATE = 1.5 ∧ specDomainWeight .SEVERE = 1 := by
  refine ⟨?_, by norm_num [specDomainWeight, SeverityLevel.value],
    by norm_num [specDomainWeight, SeverityLevel.value],
    by norm_num [specDomainWeight, SeverityLevel.value],
    by norm_num [specDomainWeight, SeverityLevel.value]⟩
  show (if _ = ([] : List ScoredBiomarker) then (100 : ℚ) else _) = _
  rw [if_neg h, zipWith_mul_map]
  unfold specDomainWeight
  congr 1
  exact congrArg List.sum (List.map_congr_left (fun sb _ => mul_comm _ _))

set_option maxRecDepth 4000 in
/-- Witness for C2: a domain holding one Normal biomarker (score 90) and
one Severe biomarker (score 30) averages to
`(2.5 · 90 + 1 · 30) / (2.5 + 1) = 510 / 7`. -/
theorem compute_domain_score_weighted_average_witness :
    ([⟨"sparc", some 1, .NORMAL, 90⟩, ⟨"ldljv", some 1, .SEVERE, 30⟩].filter
      (fun (sb : ScoredBiomarker) => ["sparc", "ldljv"].contains sb.name) ≠ []) ∧
    compute_domain_score [⟨"sparc", some 1, .NORMAL, 90⟩, ⟨"ldljv", some 1, .SEVERE, 30⟩]
      ["sparc", "ldljv"] = 510 / 7 ∧
    (compute_domain_score [⟨"sparc", some 1, .NORMAL, 90⟩, ⟨"ldljv", some 1, .SEVERE, 30⟩]
        ["sparc", "ldljv"] =
      (([⟨"sparc", some 1, .NORMAL, 90⟩, ⟨"ldljv", some 1, .SEVERE, 30⟩].filter
        (fun (sb : ScoredBiomarker) => ["sparc", "ldljv"].contains sb.name)).map
          (fun sb => specDomainWeight sb.severity * sb.percentile_score)).sum /
        (([⟨"sparc", some 1, .NORMAL, 90⟩, ⟨"ldljv", some 1, .SEVERE, 30⟩].filter
          (fun (sb : ScoredBiomarker) => ["sparc", "ldljv"].contains sb.name)).map
            (fun sb => specDomainWeight sb.severity)).sum ∧
      specDomainWeight .NORMAL = 2.5 ∧ specDomainWeight .MILD = 2 ∧
      specDomainWeight .MODERATE = 1.5 ∧ specDomainWeight .SEVERE = 1) :=
  ⟨by with_unfolding_all decide, by with_unfolding_all decide,
    compute_domain_score_weighted_average
      [⟨"sparc", some 1, .NORMAL, 90⟩, ⟨"ldljv", some 1, .SEVERE, 30⟩]
      ["sparc", "ldljv"] (by with_unfolding_all decide)⟩

/-- Claim C7: `HysteresisThreshold.apply` is a two-state machine switching
OFF→ON exactly when a sample exceeds the high threshold and ON→OFF exactly
when it drops below the low threshold; on `[0,0,8,9,2,1,9,0,0]` with
high=7, low=3 the ON mask is `[F,F,T,T,F,F,T,F,F]`. -/
theorem hysteresis_two_state_machine :
    (∀ high low x : ℚ, hysteresisStep high low false x = true ↔ high < x) ∧
    (∀ high low x : ℚ, hysteresisStep high low true x = false ↔ x < low) ∧
    hysteresis_apply 7 3 [0, 0, 8, 9, 2, 1, 9, 0, 0] =
      [false, false, true, true, false, false, true, false, false] := by
  refine ⟨fun high low x => ?_, fun high low x => ?_, by decide⟩ <;>
    · unfold hysteresisStep
      split_ifs with h1 <;> simp_all

/-- Claim C6: a windowed filter applied to a signal shorter than its
minimum window returns the input unchanged: `ButterworthFilter.apply`
(shared verbatim by the other `filtfilt`-based filters) when the signal
has fewer than `3 · max(len(a), len(b))` samples, and
`SavitzkyGolayFilter.apply` when it has fewer than `window_length`
samples — for every possible behaviour of the underlying library routine,
i.e. without ever invoking it. -/
theorem windowed_filter_short_input_identity :
    (∀ (f : ButterworthFilter) (filtfilt : List ℚ → List ℚ → List ℚ → List ℚ)
      (data : List ℚ), data.length < 3 * max f.a.length f.b.length →
      f.apply filtfilt data = data) ∧
    (∀ (f : SavitzkyGolayFilter) (savgol : List ℚ → ℕ → ℕ → List ℚ)
      (data : List ℚ), data.length < f.window_length →
      f.apply savgol data = data) := by
  constructor
  · intro f filtfilt data h
    unfold ButterworthFilter.apply
    rw [if_pos h]
  · intro f savgol data h
    unfold SavitzkyGolayFilter.apply
    rw [if_pos h]

/-- Witness for C6 at concrete filters and a two-sample signal. -/
theorem windowed_filter_short_input_identity_witness :
    ([(1 : ℚ), 2].length < 3 * max ([(1 : ℚ), 2, 3]).length ([(1 : ℚ)]).length) ∧
    ([(1 : ℚ), 2].length < 5) ∧
    ButterworthFilter.apply ⟨[1], [1, 2, 3]⟩ (fun _ _ _ => []) [1, 2] = [1, 2] ∧
    SavitzkyGolayFilter.apply ⟨5, 3⟩ (fun _ _ _ => []) [1, 2] = [1, 2] :=
  ⟨by decide, by decide,
    windowed_filter_short_input_identity.1 ⟨[1], [1, 2, 3]⟩ (fun _ _ _ => []) [1, 2] (by decide),
    windowed_filter_short_input_identity.2 ⟨5, 3⟩ (fun _ _ _ => []) [1, 2] (by decide)⟩

lemma score_biomarkers_foldl (ranges : List (String × ReferenceRange))
    (biomarkers : List (String × PyVal)) (acc : List ScoredBiomarker) :
    biomarkers.foldl
      (fun scored p =>
        match p.2 with
        | .num q => scored ++ [score_biomarker ranges p.1 (some q)]
        | _ => scored) acc =
    acc ++ (biomarkers.filterMap (fun p => match p.2 with
      | PyVal.num q => some (p.1, q)
      | _ => none)).map (fun p => score_biomarker ranges p.1 (some p.2)) := by
  induction biomarkers generalizing acc with
  | nil => simp
  | cons b t ih =>
    cases hb : b.2 <;> simp [hb, ih, List.filterMap_cons]

/-- Claim C10: NaN-valued biomarkers are scored neutrally:
`ReferenceRange.classify` maps NaN to `NORMAL`,
`ReferenceRange.get_percentile_score` maps NaN to 100, and
`SeverityScorer.score_biomarkers` drops NaN- and None-valued entries
entirely (it scores exactly the finite-valued entries, in order). -/
theorem nan_biomarkers_scored_neutral :
    (∀ r : ReferenceRange, r.classify none = .NORMAL) ∧
    (∀ r : ReferenceRange, r.get_percentile_score none = 100) ∧
    (∀ (ranges : List (String × ReferenceRange)) (biomarkers : List (String × PyVal)),
      score_biomarkers ranges biomarkers =
        (biomarkers.filterMap (fun p => match p.2 with
          | PyVal.num q => some (p.1, q)
          | _ => none)).map (fun p => score_biomarker ranges p.1 (some p.2))) := by
  refine ⟨fun r => rfl, fun r => rfl, fun ranges biomarkers => ?_⟩
  unfold score_biomarkers
  rw [score_biomarkers_foldl]
  simp

/-- Claim C8: for a `ReferenceRange` with `higher_is_worse = True` and
`normal_max < severe_threshold`, `get_percentile_score` is monotonically
non-increasing, stays in `[0, 100]`, is exactly 100 at or below
`normal_max` and exactly 0 at or beyond `severe_threshold`. -/
theorem percentile_score_monotone (r : ReferenceRange)
    (hw : r.higher_is_worse = true)
    (hlt : r.normal_max < r.severe_threshold) :
    (∀ v w : ℚ, v ≤ w →
      r.get_percentile_score (some w) ≤ r.get_percentile_score (some v)) ∧
    (∀ v : ℚ, 0 ≤ r.get_percentile_score (some v) ∧
      r.get_percentile_score (some v) ≤ 100) ∧
    (∀ v : ℚ, v ≤ r.normal_max → r.get_percentile_score (some v) = 100) ∧
    (∀ v : ℚ, r.severe_threshold ≤ v → r.get_percentile_score (some v) = 0) := by
  have hspan : 0 < r.severe_threshold - r.normal_max := by linarith
  have hval : ∀ v : ℚ, r.get_percentile_score (some v) =
      if v ≤ r.normal_max then 100
      else if r.severe_threshold ≤ v then 0
      else 100 * (1 - (v - r.normal_max) / (r.severe_threshold - r.normal_max)) := by
    intro v
    unfold ReferenceRange.get_percentile_score
    rw [hw]
    rfl
  have hbounds : ∀ v : ℚ, 0 ≤ r.get_percentile_score (some v) ∧
      r.get_percentile_score (some v) ≤ 100 := by
    intro v
    rw [hval v]
    split_ifs with h1 h2
    · norm_num
    · norm_num
    · push_neg at h1 h2
      have hratio0 : 0 ≤ (v - r.normal_max) / (r.severe_threshold - r.normal_max) :=
        div_nonneg (by linarith) (le_of_lt hspan)
      have hratio1 : (v - r.normal_max) / (r.severe_threshold - r.normal_max) ≤ 1 := by
        rw [div_le_one hspan]; linarith
      constructor <;> nlinarith
  refine ⟨?_, hbounds, ?_, ?_⟩
  · intro v w hvw
    have hbw := (hbounds w).2
    rw [hval w] at hbw
    rw [hval v, hval w]
    by_cases hv1 : v ≤ r.normal_max
    · rw [if_pos hv1]
      exact hbw
    · rw [if_neg hv1]
      push_neg at hv1
      have hw1 : ¬ w ≤ r.normal_max := by push_neg; linarith
      rw [if_neg hw1]
      by_cases hv2 : r.severe_threshold ≤ v
      · rw [if_pos hv2, if_pos (le_trans hv2 hvw)]
      · rw [if_neg hv2]
        push_neg at hv2
        by_cases hw2 : r.severe_threshold ≤ w
        · rw [if_pos hw2]
          have hr1 : (v - r.normal_max) / (r.severe_threshold - r.normal_max) ≤ 1 := by
            rw [div_le_one hspan]; linarith
          nlinarith
        · rw [if_neg hw2]
          have hmono : (v - r.normal_max) / (r.severe_threshold - r.normal_max) ≤
              (w - r.normal_max) / (r.severe_threshold - r.normal_max) :=
            (div_le_div_right hspan).mpr (by linarith)
          linarith
  · intro v hv
    rw [hval v, if_pos hv]
  · intro v hv
    rw [hval v, if_neg (by linarith), if_pos hv]

/-- Witness for C8 at the source's `normalized_jerk` reference range
`(normal 0–50, mild 100, moderate 200, severe 400, higher_is_worse)`. -/
theorem percentile_score_monotone_witness :
    ((⟨0, 50, 100, 200, 400, true⟩ : ReferenceRange).higher_is_worse = true ∧
      (⟨0, 50, 100, 200, 400, true⟩ : ReferenceRange).normal_max <
        (⟨0, 50, 100, 200, 400, true⟩ : ReferenceRange).severe_threshold) ∧
    (⟨0, 50, 100, 200, 400, true⟩ : ReferenceRange).get_percentile_score (some 225) = 50 ∧
    ((∀ v w : ℚ, v ≤ w →
      (⟨0, 50, 100, 200, 400, true⟩ : ReferenceRange).get_percentile_score (some w) ≤
        (⟨0, 50, 100, 200, 400, true⟩ : ReferenceRange).get_percentile_score (some v)) ∧
    (∀ v : ℚ,
      0 ≤ (⟨0, 50, 100, 200, 400, true⟩ : ReferenceRange).get_percentile_score (some v) ∧
      (⟨0, 50, 100, 200, 400, true⟩ : ReferenceRange).get_percentile_score (some v) ≤ 100) ∧
    (∀ v : ℚ, v ≤ (⟨0, 50, 100, 200, 400, true⟩ : ReferenceRange).normal_max →
      (⟨0, 50, 100, 200, 400, true⟩ : ReferenceRange).get_percentile_score (some v) = 100) ∧
    (∀ v : ℚ, (⟨0, 50, 100, 200, 400, true⟩ : ReferenceRange).severe_threshold ≤ v →
      (⟨0, 50, 100, 200, 400, true⟩ : ReferenceRange).get_percentile_score (some v) = 0)) :=
  ⟨⟨rfl, by norm_num⟩, by norm_num [ReferenceRange.get_percentile_score],
    percentile_score_monotone ⟨0, 50, 100, 200, 400, true⟩ rfl (by norm_num)⟩

/-- Counterexample to claim C1: for the label stream `A,A,None,A,A` with
every confidence 1 ≥ threshold 0.5, `merge_gap_frames = 1` and
`min_event_duration_frames = 3`, `_extract_events` does not return exactly
one event — it returns zero events.  (At the `None` frame (index 2) the
gap is measured from the active event's start index 0, so `2 > 1` closes
the event; both surviving runs last 2 frames and fall below the 3-frame
minimum.) -/
theorem merge_gap_stream_counterexample :
    (_extract_events ⟨3, 1, 1 / 2⟩ "WRIST" ["A", "A", "None", "A", "A"]
      (fun _ => 1) (fun i => (i : ℤ))).length ≠ 1 := by
  with_unfolding_all decide

/-- Amended claim C1: the per-frame label stream `A,A,None,A,A` with every
confidence at or above the threshold, `merge_gap_frames = 1` and
`min_event_duration_frames = 3`, yields zero events (not one): the `None`
frame lies 2 frames after the active event's start, beyond the merge gap,
so the event closes after 2 frames and both 2-frame runs are dropped by
the 3-frame minimum duration. -/
theorem merge_gap_stream_amended :
    _extract_events ⟨3, 1, 1 / 2⟩ "WRIST" ["A", "A", "None", "A", "A"]
      (fun _ => 1) (fun i => (i : ℤ)) = [] := by
  with_unfolding_all decide

/-- Claim C5: every (float-valued) biomarker method of
`BiomarkerCalculator` returns NaN — modelled as `none` of a total
function, hence without raising — whenever its input signal is shorter
than that metric's own minimum sample count: 4 for the jerk/spectral
smoothness metrics, 3 for the decrement/regression metrics, 2 for the
hesitation index, 10 for the spectral and bilateral metrics, and the
window-derived `int(window_duration·fs)·2` (resp. `·3`) for the windowed
tremor metrics — for arbitrary remaining parameters and every possible
behaviour of the opaque numeric routines (none of which is reached). -/
theorem biomarker_short_input_nan (sqrtF logF : ℚ → ℚ)
    (rfftMag : List ℚ → List ℚ) (welchF : ℚ → ℕ → List ℚ → List ℚ × List ℚ)
    (polyfitSlope : List ℚ → List ℚ → ℚ)
    (correlateF : List ℚ → List ℚ → List ℚ) (lagsF : ℕ → ℕ → List ℤ)
    (coherenceF : ℚ → ℕ → List ℚ → List ℚ → List ℚ × List ℚ)
    (bandpassF : ℚ → ℚ → List ℚ → Option (List ℚ))
    (hilbertMagF : List ℚ → List ℚ) :
    (∀ (fs freq_cutoff amplitude_threshold : ℚ) (s : List ℚ), s.length < 4 →
      compute_sparc sqrtF rfftMag fs s freq_cutoff amplitude_threshold = none) ∧
    (∀ (fs : ℚ) (s : List ℚ) (md pl : Option ℚ), s.length < 4 →
      compute_ldljv sqrtF logF fs s md pl = none) ∧
    (∀ (fs : ℚ) (s : List ℚ) (md amp : Option ℚ), s.length < 4 →
      compute_ldlja sqrtF logF fs s md amp = none) ∧
    (∀ (fs : ℚ) (s : List ℚ), s.length < 4 →
      compute_normalized_jerk sqrtF fs s = none) ∧
    (∀ (s : List ℚ) (ef lf : ℚ), s.length < 3 →
      compute_amplitude_decrement s ef lf = none) ∧
    (∀ (s : List ℚ) (ef lf : ℚ), s.length < 3 →
      compute_velocity_reduction s ef lf = none) ∧
    (∀ (fs : ℚ) (s : List ℚ) (tf : ℚ), s.length < 2 →
      compute_hesitation_index fs s tf = none) ∧
    (∀ (s : List ℚ) (ts : Option (List ℚ)), s.length < 3 →
      compute_performance_degradation polyfitSlope s ts = none) ∧
    (∀ (s : List ℚ) (ws : ℕ), s.length < ws * 2 →
      compute_consistency_decline sqrtF polyfitSlope s ws = none) ∧
    (∀ (fs : ℚ) (l r : List ℚ) (mls : Option ℤ), l.length < 10 ∨ r.length < 10 →
      compute_coordination_lag correlateF lagsF fs l r mls = none) ∧
    (∀ (fs : ℚ) (l r : List ℚ) (fb : ℚ × ℚ), l.length < 10 ∨ r.length < 10 →
      compute_phase_coherence coherenceF fs l r fb = none) ∧
    (∀ (fs : ℚ) (s : List ℚ) (fb : ℚ × ℚ), s.length < 10 →
      compute_q_factor welchF fs s fb = none) ∧
    (∀ (fs : ℚ) (s : List ℚ) (wd : ℚ) (fb : ℚ × ℚ),
      (s.length : ℤ) < pyInt (wd * fs) * 2 →
      compute_tremor_stability welchF sqrtF fs s wd fb = none) ∧
    (∀ (fs : ℚ) (s : List ℚ) (fb : ℚ × ℚ), s.length < 10 →
      compute_amplitude_variability bandpassF hilbertMagF sqrtF fs s fb = none) ∧
    (∀ (fs : ℚ) (s : List ℚ) (wd : ℚ) (fb : ℚ × ℚ),
      (s.length : ℤ) < pyInt (wd * fs) * 3 →
      compute_frequency_drift welchF polyfitSlope fs s wd fb = none) := by
  refine ⟨?_, ?_, ?_, ?_, ?_, ?_, ?_, ?_, ?_, ?_, ?_, ?_, ?_, ?_, ?_⟩
  · intro fs fc at_ s h
    simp only [compute_sparc]
    rw [if_pos h]
  · intro fs s md pl h
    simp only [compute_ldljv]
    rw [if_pos h]
  · intro fs s md amp h
    simp only [compute_ldlja]
    rw [if_pos h]
  · intro fs s h
    simp only [compute_normalized_jerk]
    rw [if_pos h]
  · intro s ef lf h
    simp only [compute_amplitude_decrement]
    rw [if_pos h]
  · intro s ef lf h
    simp only [compute_velocity_reduction]
    rw [if_pos h]
  · intro fs s tf h
    simp only [compute_hesitation_index]
    rw [if_pos h]
  · intro s ts h
    simp only [compute_performance_degradation]
    rw [if_pos h]
  · intro s ws h
    simp only [compute_consistency_decline]
    rw [if_pos h]
  · intro fs l r mls h
    simp only [compute_coordination_lag]
    rw [if_pos h]
  · intro fs l r fb h
    simp only [compute_phase_coherence]
    rw [if_pos h]
  · intro fs s fb h
    simp only [compute_q_factor]
    rw [if_pos h]
  · intro fs s wd fb h
    simp only [compute_tremor_stability]
    rw [if_pos h]
  · intro fs s fb h
    simp only [compute_amplitude_variability]
    rw [if_pos h]
  · intro fs s wd fb h
    simp only [compute_frequency_drift]
    rw [if_pos h]

/-- Witness for C5 at each metric's own boundary: a 3-sample signal for
the minimum-4 metrics, 2 samples for the minimum-3 metrics, 1 sample for
the hesitation index, 9 samples for the minimum-10 metrics and for the
windowed tremor metrics at `fs = 30`, `window_duration = 1` (minimums 60
and 90), with concrete numeric routines. -/
theorem biomarker_short_input_nan_witness :
    ([(1 : ℚ), 1, 1].length < 4) ∧
    ([(1 : ℚ), 1].length < 3) ∧
    ([(1 : ℚ)].length < 2) ∧
    ((List.replicate 9 (1 : ℚ)).length < 10) ∧
    (((List.replicate 9 (1 : ℚ)).length : ℤ) < pyInt ((1 : ℚ) * 30) * 2) ∧
    (((List.replicate 9 (1 : ℚ)).length : ℤ) < pyInt ((1 : ℚ) * 30) * 3) ∧
    compute_sparc id id 30 [1, 1, 1] 10 (1 / 20) = none ∧
    compute_ldljv id id 30 [1, 1, 1] none none = none ∧
    compute_ldlja id id 30 [1, 1, 1] none none = none ∧
    compute_normalized_jerk id 30 [1, 1, 1] = none ∧
    compute_amplitude_decrement [1, 1] (33 / 100) (33 / 100) = none ∧
    compute_velocity_reduction [1, 1] (33 / 100) (33 / 100) = none ∧
    compute_hesitation_index 30 [1] (1 / 10) = none ∧
    compute_performance_degradation (fun _ _ => 0) [1, 1] none = none ∧
    compute_consistency_decline id (fun _ _ => 0) (List.replicate 9 1) 5 = none ∧
    compute_coordination_lag (fun _ _ => []) (fun _ _ => []) 30
      (List.replicate 9 1) (List.replicate 9 1) none = none ∧
    compute_phase_coherence (fun _ _ _ _ => ([], [])) 30
      (List.replicate 9 1) (List.replicate 9 1) (1 / 2, 5) = none ∧
    compute_q_factor (fun _ _ _ => ([], [])) 30 (List.replicate 9 1) (3, 12) = none ∧
    compute_tremor_stability (fun _ _ _ => ([], [])) id 30
      (List.replicate 9 1) 1 (3, 12) = none ∧
    compute_amplitude_variability (fun _ _ _ => none) id id 30
      (List.replicate 9 1) (3, 12) = none ∧
    compute_frequency_drift (fun _ _ _ => ([], [])) (fun _ _ => 0) 30
      (List.replicate 9 1) 1 (3, 12) = none := by
  have T := biomarker_short_input_nan id id id (fun _ _ _ => ([], [])) (fun _ _ => 0)
    (fun _ _ => []) (fun _ _ => []) (fun _ _ _ _ => ([], []))
    (fun _ _ _ => none) id
  exact ⟨by decide, by decide, by decide, by decide,
    by with_unfolding_all decide, by with_unfolding_all decide,
    T.1 30 10 (1 / 20) [1, 1, 1] (by decide),
    T.2.1 30 [1, 1, 1] none none (by decide),
    T.2.2.1 30 [1, 1, 1] none none (by decide),
    T.2.2.2.1 30 [1, 1, 1] (by decide),
    T.2.2.2.2.1 [1, 1] (33 / 100) (33 / 100) (by decide),
    T.2.2.2.2.2.1 [1, 1] (33 / 100) (33 / 100) (by decide),
    T.2.2.2.2.2.2.1 30 [1] (1 / 10) (by decide),
    T.2.2.2.2.2.2.2.1 [1, 1] none (by decide),
    T.2.2.2.2.2.2.2.2.1 (List.replicate 9 1) 5 (by decide),
    T.2.2.2.2.2.2.2.2.2.1 30 (List.replicate 9 1) (List.replicate 9 1) none
      (Or.inl (by decide)),
    T.2.2.2.2.2.2.2.2.2.2.1 30 (List.replicate 9 1) (List.replicate 9 1) (1 / 2, 5)
      (Or.inl (by decide)),
    T.2.2.2.2.2.2.2.2.2.2.2.1 30 (List.replicate 9 1) (3, 12) (by decide),
    T.2.2.2.2.2.2.2.2.2.2.2.2.1 30 (List.replicate 9 1) 1 (3, 12)
      (by with_unfolding_all decide),
    T.2.2.2.2.2.2.2.2.2.2.2.2.2.1 30 (List.replicate 9 1) (3, 12) (by decide),
    T.2.2.2.2.2.2.2.2.2.2.2.2.2.2 30 (List.replicate 9 1) 1 (3, 12)
      (by with_unfolding_all decide)⟩

/-- Claim C4: `compute_sparc` never returns a positive value — whenever it
returns a (non-NaN) result, that result is the negation of a sum of
(nonnegative) square-root terms, hence `≤ 0`; this holds for every
spectrum the FFT routine could produce, provided only that the float
square root is nonnegative on nonnegative inputs. -/
theorem compute_sparc_nonpositive (sqrtF : ℚ → ℚ) (rfftMag : List ℚ → List ℚ)
    (fs freq_cutoff amplitude_threshold : ℚ) (velocity : List ℚ)
    (hsqrt : ∀ x : ℚ, 0 ≤ x → 0 ≤ sqrtF x) :
    ∀ r ∈ compute_sparc sqrtF rfftMag fs velocity freq_cutoff amplitude_threshold,
      r ≤ 0 := by
  intro r hr
  simp only [compute_sparc] at hr
  repeat' split at hr
  all_goals
    first
    | exact absurd hr (Option.not_mem_none r)
    | (rw [Option.mem_some_iff] at hr
       subst hr
       refine neg_nonpos.mpr (List.sum_nonneg ?_)
       intro x hx
       simp only [List.mem_map] at hx
       obtain ⟨p, hp, rfl⟩ := hx
       exact hsqrt _ (by positivity))

/-- Witness for C4: on the four-sample velocity `[1,1,1,1]` at `fs = 30`
with a flat three-bin spectrum, SPARC evaluates to exactly `-9/16 ≤ 0`. -/
theorem compute_sparc_nonpositive_witness :
    (∀ x : ℚ, 0 ≤ x → 0 ≤ |x|) ∧
    compute_sparc (fun x => |x|) (fun _ => [1, 1, 1]) 30 [1, 1, 1, 1] 10 (1 / 20) =
      some (-(9 / 16)) ∧
    (∀ r ∈ compute_sparc (fun x => |x|) (fun _ => [1, 1, 1]) 30 [1, 1, 1, 1] 10 (1 / 20),
      r ≤ 0) :=
  ⟨fun x _ => abs_nonneg x, by with_unfolding_all decide,
    compute_sparc_nonpositive (fun x => |x|) (fun _ => [1, 1, 1]) 30 10 (1 / 20)
      [1, 1, 1, 1] (fun x _ => abs_nonneg x)⟩

/-! ## Event-extraction invariants (claim C9) -/

/-- The per-event record invariant of a `DetectedEvent` whose confidences
all lie in `[0, 1]` and whose frame indices ascend. -/
def GoodEvent (e : DetectedEvent) : Prop :=
  e.start_frame ≤ e.end_frame ∧
  e.duration_frames = e.end_frame - e.start_frame + 1 ∧
  0 ≤ e.confidence ∧ e.confidence ≤ e.peak_confidence ∧ e.peak_confidence ≤ 1

/-- Loop invariant of `_extract_events` before processing index `i`:
every emitted event is good, and an open event started strictly before
`i` with a nonempty `[0, 1]`-bounded confidence buffer. -/
def EvInv (i : ℕ) (st : EvState) : Prop :=
  (∀ e ∈ st.events, GoodEvent e) ∧
  ∀ l, st.currentLabel = some l →
    st.currentStart < i ∧ st.currentConfs ≠ [] ∧
    ∀ x ∈ st.currentConfs, 0 ≤ x ∧ x ≤ 1

lemma goodEvent_create {cat lbl : String} {s e : ℕ} {confs : List ℚ}
    (hse : s ≤ e) (hne : confs ≠ []) (hbnd : ∀ x ∈ confs, 0 ≤ x ∧ x ≤ 1) :
    GoodEvent (_create_event cat lbl (s : ℤ) (e : ℤ) confs) := by
  unfold GoodEvent
  refine ⟨show (s : ℤ) ≤ (e : ℤ) by exact_mod_cast hse, rfl, ?_, ?_, ?_⟩
  · show 0 ≤ listMean confs
    exact listMean_nonneg (fun x hx => (hbnd x hx).1)
  · show listMean confs ≤ listMax confs
    exact listMean_le_listMax hne
  · show listMax confs ≤ 1
    exact listMax_le hne (fun x hx => (hbnd x hx).2)

lemma extractStep_inv (d : EventDetector) (cat : String) (labels : List String)
    (confs : ℕ → ℚ) (hc : ∀ j, 0 ≤ confs j ∧ confs j ≤ 1) (i : ℕ) (st : EvState)
    (h : EvInv i st) :
    EvInv (i + 1) (extractStep d cat labels confs (fun j => (j : ℤ)) st i) := by
  obtain ⟨evs, curLbl, curStart, curConfs⟩ := st
  obtain ⟨hev, hcur⟩ := h
  dsimp only at hev hcur
  cases curLbl with
  | none =>
    dsimp only [extractStep, EvInv]
    split_ifs
    · exact ⟨hev, fun l hl => nomatch hl⟩
    · refine ⟨hev, fun l _ => ⟨Nat.lt_succ_self i, by simp, ?_⟩⟩
      intro x hx
      rw [List.mem_singleton] at hx
      subst hx
      exact hc i
  | some lcur =>
    have hinv := hcur lcur rfl
    dsimp only [extractStep, EvInv]
    split_ifs
    · -- skip, gap within merge_gap: event stays open
      exact ⟨hev, fun l _ => ⟨Nat.lt_succ_of_lt hinv.1, hinv.2.1, hinv.2.2⟩⟩
    · -- skip, gap too large: close the event
      refine ⟨?_, fun l hl => nomatch hl⟩
      intro e he
      rcases List.mem_append.mp he with he | he
      · exact hev e he
      · rw [List.mem_singleton] at he
        subst he
        exact goodEvent_create (by omega) hinv.2.1 hinv.2.2
    · -- same label: accumulate the confidence
      refine ⟨hev, fun l _ => ⟨Nat.lt_succ_of_lt hinv.1, by simp, ?_⟩⟩
      intro x hx
      rcases List.mem_append.mp hx with hx | hx
      · exact hinv.2.2 x hx
      · rw [List.mem_singleton] at hx
        subst hx
        exact hc i
    · -- label change: close the event and open a new one
      refine ⟨?_, fun l _ => ⟨Nat.lt_succ_self i, by simp, ?_⟩⟩
      · intro e he
        rcases List.mem_append.mp he with he | he
        · exact hev e he
        · rw [List.mem_singleton] at he
          subst he
          exact goodEvent_create (by omega) hinv.2.1 hinv.2.2
      · intro x hx
        rw [List.mem_singleton] at hx
        subst hx
        exact hc i

lemma extract_loop_inv (d : EventDetector) (cat : String) (labels : List String)
    (confs : ℕ → ℚ) (hc : ∀ j, 0 ≤ confs j ∧ confs j ≤ 1) (n : ℕ) :
    EvInv n ((List.range n).foldl (extractStep d cat labels confs (fun j => (j : ℤ)))
      { events := [], currentLabel := none, currentStart := 0, currentConfs := [] }) := by
  induction n with
  | zero => exact ⟨fun e he => absurd he (List.not_mem_nil e), fun l hl => nomatch hl⟩
  | succ n ih =>
    rw [List.range_succ, List.foldl_append, List.foldl_cons, List.foldl_nil]
    exact extractStep_inv d cat labels confs hc n _ ih

/-- Claim C9: with the default ascending frame indices and all input
confidences in `[0, 1]`, every event emitted by `_extract_events`
satisfies `start_frame ≤ end_frame`,
`duration_frames = end_frame − start_frame + 1 ≥ min_event_duration`, and
`0 ≤ confidence ≤ peak_confidence ≤ 1`; in particular a 2-frame run with
`min_event_duration_frames = 3` yields zero events. -/
theorem extract_events_invariants (d : EventDetector) (cat : String)
    (labels : List String) (confidences : ℕ → ℚ)
    (hc : ∀ i, 0 ≤ confidences i ∧ confidences i ≤ 1) :
    (∀ e ∈ _extract_events d cat labels confidences (fun i => (i : ℤ)),
      e.start_frame ≤ e.end_frame ∧
      e.duration_frames = e.end_frame - e.start_frame + 1 ∧
      d.min_event_duration ≤ e.duration_frames ∧
      0 ≤ e.confidence ∧ e.confidence ≤ e.peak_confidence ∧ e.peak_confidence ≤ 1) ∧
    _extract_events ⟨3, 1, 1 / 2⟩ "STATE" ["A", "A"] (fun _ => 1) (fun i => (i : ℤ)) = [] := by
  refine ⟨?_, by with_unfolding_all decide⟩
  intro e he
  simp only [_extract_events] at he
  by_cases hn : labels.length = 0
  · rw [if_pos hn] at he
    exact absurd he (List.not_mem_nil e)
  · rw [if_neg hn] at he
    rw [List.mem_filter] at he
    obtain ⟨hmem, hpred⟩ := he
    have hdur : d.min_event_duration ≤ e.duration_frames := by
      simpa using hpred
    obtain ⟨hev, hcur⟩ := extract_loop_inv d cat labels confidences hc labels.length
    have hgood : GoodEvent e := by
      rcases hst : ((List.range labels.length).foldl
          (extractStep d cat labels confidences (fun j => (j : ℤ)))
          { events := [], currentLabel := none, currentStart := 0,
            currentConfs := [] }).currentLabel with _ | l
      · rw [hst] at hmem
        dsimp only at hmem
        exact hev e hmem
      · rw [hst] at hmem
        dsimp only at hmem
        rcases List.mem_append.mp hmem with hmem | hmem
        · exact hev e hmem
        · rw [List.mem_singleton] at hmem
          subst hmem
          have hinv := hcur l hst
          exact goodEvent_create (by omega) hinv.2.1 hinv.2.2
    obtain ⟨hg1, hg2, hg3, hg4, hg5⟩ := hgood
    exact ⟨hg1, hg2, hdur, hg3, hg4, hg5⟩

/-- Witness for C9: the constant-confidence-1 four-frame run `A,A,A,A`
with `min_event_duration_frames = 3` produces the single event spanning
frames 0–3 with unit confidences, and it satisfies the invariants. -/
theorem extract_events_invariants_witness :
    (∀ i : ℕ, 0 ≤ (fun _ : ℕ => (1 : ℚ)) i ∧ (fun _ : ℕ => (1 : ℚ)) i ≤ 1) ∧
    _extract_events ⟨3, 1, 1 / 2⟩ "WRIST" ["A", "A", "A", "A"]
      (fun _ => 1) (fun i => (i : ℤ)) =
      [{ category := "WRIST", label := "A", start_frame := 0, end_frame := 3,
         duration_frames := 4, confidence := 1, peak_confidence := 1 }] ∧
    ((∀ e ∈ _extract_events ⟨3, 1, 1 / 2⟩ "WRIST" ["A", "A", "A", "A"]
        (fun _ => 1) (fun i => (i : ℤ)),
      e.start_frame ≤ e.end_frame ∧
      e.duration_frames = e.end_frame - e.start_frame + 1 ∧
      (⟨3, 1, 1 / 2⟩ : EventDetector).min_event_duration ≤ e.duration_frames ∧
      0 ≤ e.confidence ∧ e.confidence ≤ e.peak_confidence ∧ e.peak_confidence ≤ 1) ∧
    _extract_events ⟨3, 1, 1 / 2⟩ "STATE" ["A", "A"] (fun _ => 1) (fun i => (i : ℤ)) = []) :=
  ⟨fun _ => by norm_num, by with_unfolding_all decide,
    extract_events_invariants ⟨3, 1, 1 / 2⟩ "WRIST" ["A", "A", "A", "A"]
      (fun _ => 1) (fun _ => by norm_num)⟩

end SynaptiHand
